import Mathlib

/-!
Verification development for the LabxDB-tools repository.

Shallow embedding of the relevant source functions:
 * `src/labxdb/fastq.py` — filename classification, FASTQ header/content inspection;
 * `src/labxdb/ncbi.py` — archive XML parsing;
 * `src/labxdb_scripts/import_sra_id.py` — reconciliation (link path and verify path).

Python strings are modelled as Lean `String`, Python `int` as `Int`/`Nat`,
Python `None`-able values and dict-key presence as `Option`, Python
exceptions as `Except`, and `sys.exit()` as an `Except.error` outcome.
Files are modelled as lists of newline-stripped line contents.
-/

namespace LabxDB

/-- Decidable equality for `Except` results. -/
instance {ε α : Type} [DecidableEq ε] [DecidableEq α] : DecidableEq (Except ε α) := fun x y =>
  match x, y with
  | Except.ok a, Except.ok b =>
    if h : a = b then isTrue (by rw [h]) else isFalse (by intro hh; cases hh; exact h rfl)
  | Except.error a, Except.error b =>
    if h : a = b then isTrue (by rw [h]) else isFalse (by intro hh; cases hh; exact h rfl)
  | Except.ok _, Except.error _ => isFalse (by intro hh; cases hh)
  | Except.error _, Except.ok _ => isFalse (by intro hh; cases hh)

/-! ### fastq.py: check_fastqs (source lines 63-67) -/

/-- One entry of the `fastqs` mapping built by `find_fastqs`: the fields a
descriptor carries that `check_fastqs` reads (`path`) plus the filename. -/
structure FastqEntry where
  path : String
  fname : String
deriving DecidableEq, Repr

/-- Number of distinct `path` values in a descriptor list:
`len(set([p['path'] for p in path_list]))`. -/
def pathCount (ps : List FastqEntry) : Nat :=
  ((ps.map (fun p => p.path)).dedup).length

/-- `check_fastqs(fastqs)` (source lines 63-67): iterate groups in order;
if a group's distinct-path count is not 1, return `False`; else `True`. -/
def check_fastqs : List (String × List FastqEntry) → Bool
  | [] => true
  | (_, ps) :: rest => if pathCount ps ≠ 1 then false else check_fastqs rest

/-- Claim-side predicate (from the spec's words): some name's descriptor
list spans at least 2 distinct directory paths. -/
def specSpansTwo (fastqs : List (String × List FastqEntry)) : Bool :=
  fastqs.any (fun g => decide (2 ≤ pathCount g.2))

/-! ### fastq.py: parse_illumina_fastq_filename (source lines 18-24)

The regex `(.+)_([a-zA-Z0-9]+)_L(\d{3})_([R,I][1,2,3])_\d{3}\.f` is embedded
as a backtracking matcher over `List Char`.  `re.match` anchors at the start
only; `(.+)` is greedy (longest prefix first) and excludes newline; the
character classes `[R,I]` and `[1,2,3]` contain a literal comma. -/

structure IlluminaFname where
  name : String
  barcode : String
  lane : String
  fend : String
deriving DecidableEq, Repr

/-- All splits `(p, s)` of a list with `p ++ s = l`, prefix length ascending. -/
def splitsAsc : List Char → List (List Char × List Char)
  | [] => [([], [])]
  | c :: cs => ([], c :: cs) :: (splitsAsc cs).map (fun p => (c :: p.1, p.2))

/-- Splits with prefix length descending: greedy match order. -/
def splitsDesc (l : List Char) : List (List Char × List Char) :=
  (splitsAsc l).reverse

/-- The ASCII class `[a-zA-Z0-9]`. -/
def isAlnumAscii (c : Char) : Bool := c.isAlpha || c.isDigit

/-- First character class of the end tag: `[R,I]` — note the literal comma. -/
def endChar1 (c : Char) : Bool := c == 'R' || c == ',' || c == 'I'

/-- Second character class of the end tag: `[1,2,3]` — note the literal comma. -/
def endChar2 (c : Char) : Bool := c == '1' || c == ',' || c == '2' || c == '3'

/-- Match `_L(\d{3})_([R,I][1,2,3])_\d{3}\.f` (anything may follow `.f`),
returning the captured lane and end groups. -/
def matchAfterBarcode : List Char → Option (String × String)
  | '_' :: 'L' :: a :: b :: c :: '_' :: e1 :: e2 :: '_' :: x :: y :: z :: '.' :: 'f' :: _ =>
    if a.isDigit && b.isDigit && c.isDigit && endChar1 e1 && endChar2 e2
       && x.isDigit && y.isDigit && z.isDigit then
      some (String.mk [a, b, c], String.mk [e1, e2])
    else none
  | _ => none

/-- Match `([a-zA-Z0-9]+)` greedily followed by the fixed tail. -/
def matchBarcode (suf : List Char) : Option (String × String × String) :=
  (splitsDesc suf).findSome? (fun pr =>
    if !pr.1.isEmpty && pr.1.all isAlnumAscii then
      (matchAfterBarcode pr.2).map (fun le => (String.mk pr.1, le.1, le.2))
    else none)

/-- Match `(.+)_` greedily (any char except newline), then the rest. -/
def illuminaFnameCore (l : List Char) : Option IlluminaFname :=
  (splitsDesc l).findSome? (fun pr =>
    if !pr.1.isEmpty && pr.1.all (fun c => c != '\n') then
      match pr.2 with
      | '_' :: suf =>
        (matchBarcode suf).map (fun r =>
          { name := String.mk pr.1, barcode := r.1, lane := r.2.1, fend := r.2.2 })
      | _ => none
    else none)

/-- `parse_illumina_fastq_filename(fname)` (source lines 18-24). -/
def parse_illumina_fastq_filename (fname : String) : Option IlluminaFname :=
  illuminaFnameCore fname.data

/-- Claim-side predicate (from the spec's words): the end tag's first
character is exactly `R` or `I` and its second exactly `1`, `2` or `3`. -/
def specEndTagOk (e : String) : Bool :=
  match e.data with
  | [c1, c2] => (c1 == 'R' || c1 == 'I') && (c2 == '1' || c2 == '2' || c2 == '3')
  | _ => false

/-! ### fastq.py: get_illumina_fastq_info / get_pacbio_fastq_info (lines 69-117)

The info dict built from a FASTQ header line.  Every identity field is
`Option`: `none` both for a dict key that is absent and for a key whose
Python value is `None` (the two coincide for all uses in the source). -/

structure SeqIdInfo where
  instrument : Option String := none
  run_number : Option String := none
  flowcell : Option String := none
  lane : Option Int := none
  pair : Option Int := none
  barcode : Option String := none
deriving DecidableEq, Repr

/-- The all-absent info dict (`{}`). -/
def emptySeqId : SeqIdInfo := {}

/-- Split a character list at every character satisfying `p`, keeping empty
pieces (the behaviour of Python `str.split(sep)` for a one-char `sep`). -/
def splitPred (p : Char → Bool) : List Char → List (List Char)
  | [] => [[]]
  | c :: cs =>
    if p c then [] :: splitPred p cs
    else
      match splitPred p cs with
      | [] => [[c]]
      | h :: t => (c :: h) :: t

/-- Python `s.split(sep)` for a one-character separator. -/
def pySplitChar (sep : Char) (s : String) : List String :=
  (splitPred (fun c => c == sep) s.data).map String.mk

/-- Python `str.split()` with no argument: split on whitespace runs,
discarding empty pieces. -/
def pySplitWs (s : String) : List String :=
  ((splitPred (fun c => c.isWhitespace) s.data).map String.mk).filter (fun t => t ≠ "")

/-- Python `s.startswith(p)`. -/
def pyStartsWith (s p : String) : Bool :=
  p.data.isPrefixOf s.data

/-- Parse a nonempty run of ASCII digits. -/
def parseNatChars : List Char → Option Nat
  | [] => none
  | l => go l 0
where
  go : List Char → Nat → Option Nat
    | [], acc => some acc
    | c :: cs, acc =>
      if c.isDigit then go cs (acc * 10 + (c.toNat - 48)) else none

/-- Python `int(s)` on a decimal literal with optional leading minus
(`ValueError` on anything else is `none`). -/
def pyToInt (s : String) : Option Int :=
  match s.data with
  | '-' :: rest => (parseNatChars rest).map (fun n => -(n : Int))
  | l => (parseNatChars l).map (fun n => (n : Int))

/-- Python `int(s[0])`: `IndexError` on an empty string, else `int` of the
first character. -/
def pyIntOfFirstChar (s : String) : Option Int :=
  match s.data with
  | [] => none
  | c :: _ => pyToInt (String.mk [c])

/-- Python `s[1:]`. -/
def pyDrop1 (s : String) : String :=
  String.mk (s.data.drop 1)

/-- Lift a fallible Python operation (`IndexError`, `ValueError`, ...) into
the `try:` body. -/
def liftOpt : Option α → Except Unit α
  | some a => Except.ok a
  | none => Except.error ()

/-- The body of the `try:` block of `get_illumina_fastq_info` (lines 75-97).
`id_fields[k]` is `fs[k]?`, `int(s)` is `String.toInt?`, `meta[0]` /
`id_fields[-1][0]` followed by `int(...)` is `toInt?` on the 1-char take. -/
def illuminaBody (line : String) : Except Unit SeqIdInfo :=
  let seq_ids := pySplitWs line
  let pidm : Except Unit (String × Option String) :=
    if seq_ids.length = 2 then
      match seq_ids with
      | [a, b] => Except.ok (a, some b)
      | _ => Except.error ()
    else
      match seq_ids with
      | [] => Except.error ()
      | a :: _ => Except.ok (a, none)
  match pidm with
  | Except.error _ => Except.error ()
  | Except.ok (identifier, meta) =>
    let fs := pySplitChar ':' identifier
    match fs[1]?, fs[2]?, fs[3]? with
    | some rn, some fc, some ls =>
      match pyToInt ls with
      | none => Except.error ()
      | some lane =>
        let instrument := pyDrop1 (fs.headD "")
        match meta with
        | some m =>
          match pyIntOfFirstChar m, (pySplitChar ':' m).getLast? with
          | some pr, some bc =>
            Except.ok { instrument := some instrument, run_number := some rn,
                        flowcell := some fc, lane := some lane,
                        pair := some pr, barcode := some bc }
          | _, _ => Except.error ()
        | none =>
          match fs.getLast? with
          | none => Except.error ()
          | some lf =>
            match pyIntOfFirstChar lf with
            | some pr =>
              Except.ok { instrument := some instrument, run_number := some rn,
                          flowcell := some fc, lane := some lane,
                          pair := some pr, barcode := none }
            | none => Except.error ()
    | _, _, _ => Except.error ()

/-- `get_illumina_fastq_info(line)` (lines 69-99): the `try:` body with every
exception swallowed into `None`. -/
def get_illumina_fastq_info (line : String) : Option SeqIdInfo :=
  (illuminaBody line).toOption

/-- `get_pacbio_fastq_info(line)` (lines 101-117): split on `/`; with at
least 3 pieces set `flowcell` from the first piece sans its first char;
otherwise return the empty info dict.  The body cannot raise, so the
`except:` branch is dead and the result is always a dict. -/
def get_pacbio_fastq_info (line : String) : Option SeqIdInfo :=
  let seq_ids := pySplitChar '/' line
  if 3 ≤ seq_ids.length then
    some { emptySeqId with flowcell := some (pyDrop1 (seq_ids.headD "")) }
  else
    some emptySeqId

/-- The parser loop of `get_fastq_info` (lines 131-136) with the default
`fastq_fns = [get_illumina_fastq_info, get_pacbio_fastq_info]`: the first
non-`None` result wins, else the info dict stays `{}`. -/
def firstSeqId (line : String) : SeqIdInfo :=
  match get_illumina_fastq_info line with
  | some m => m
  | none =>
    match get_pacbio_fastq_info line with
    | some m => m
    | none => emptySeqId

/-! ### fastq.py: get_fastq_info (lines 119-161) -/

/-- The result dict of `get_fastq_info`: identity fields plus `read_length`,
plus `spots` when a full scan was requested. -/
structure ScanInfo where
  id : SeqIdInfo
  read_length : Nat
  spots : Option Nat := none
deriving DecidableEq, Repr

/-- The `get_spots` loop (lines 146-154): consume complete 4-line groups
from the remaining stream; each group bumps the count and folds the length
of its second line into the running maximum; fewer than 4 remaining lines
(Python `StopIteration`) ends the scan. -/
def scanSpots : List String → Nat → Nat → Nat × Nat
  | _ :: l1 :: _ :: _ :: rest, nread, maxLen =>
    scanSpots rest (nread + 1) (if l1.length > maxLen then l1.length else maxLen)
  | _, nread, maxLen => (nread, maxLen)

/-- `get_fastq_info(path_seq, ..., get_spots)` (lines 119-161) over the
file's newline-stripped lines (`readline` at end-of-file yields `""`).
The only raising statement is the `assert` that the first line starts
with `@`; everything after it is total. -/
def get_fastq_info (lines : List String) (get_spots : Bool) : Except String ScanInfo :=
  let line := lines.headD ""
  if pyStartsWith line "@" then
    let info := firstSeqId line
    let seq := (lines[1]?).getD ""
    if get_spots then
      let r := scanSpots (lines.drop 2) 1 seq.length
      Except.ok { id := info, read_length := r.2, spots := some r.1 }
    else
      Except.ok { id := info, read_length := seq.length, spots := none }
  else
    Except.error ("Invalid FASTQ header: " ++ line)

/-- One complete 4-line FASTQ record. -/
structure FqRecord where
  header : String
  seq : String
  plus : String
  qual : String
deriving DecidableEq, Repr

/-- The line stream of a list of complete records. -/
def flatten4 : List FqRecord → List String
  | [] => []
  | r :: rs => r.header :: r.seq :: r.plus :: r.qual :: flatten4 rs

/-- Claim-side function (from the spec's words): the maximum sequence-line
length over all records. -/
def specMaxSeqLen (rs : List FqRecord) : Nat :=
  (rs.map (fun r => r.seq.length)).foldl Nat.max 0

/-- Claim-side function (from the spec's words): the reported flowcell is
all but the last 4 colon-fields of the identifier joined by `:` with the
leading `@` marker stripped. -/
def joinSep (sep : Char) : List String → List Char
  | [] => []
  | [s] => s.data
  | s :: rest => s.data ++ sep :: joinSep sep rest

/-- Claim-side function, continued (from the spec's words). -/
def specIlluminaFlowcell (line : String) : String :=
  let fs := pySplitChar ':' ((pySplitWs line).headD "")
  String.mk ((joinSep ':' (fs.take (fs.length - 4))).drop 1)

/-! ### ncbi.py: parse_sra_xml (source lines 49-125)

The parsed XML tree is embedded as a record of the query results of the
`find`/`iter` calls the function performs; element attributes the source
reads unconditionally are modelled as present. -/

/-- One `SRAFile` element (attributes read at lines 113-119). -/
structure XmlSraFile where
  cluster : String
  supertype : String
  url : String
  size : Nat
  md5 : Option String
deriving DecidableEq, Repr

/-- One `RUN` element: accession and total_spots attributes, the per-run
`./PLATFORM/ILLUMINA/INSTRUMENT_MODEL` text, the `./Statistics` children as
(index, count) attribute pairs (`none` = element absent, which the source
would crash on), and the `SRAFile` descendants. -/
structure XmlRun where
  accession : String
  total_spots : Nat
  platform_illumina : Option String
  stats : Option (List (String × Nat))
  files : List XmlSraFile
deriving DecidableEq, Repr

/-- The query results of `parse_sra_xml` over one document. -/
structure SraXmlDoc where
  /-- `.//STUDY` accession and alias attributes (`none` = no STUDY element). -/
  study : Option (String × String)
  /-- `.//SAMPLE` accession and alias attributes. -/
  sample_acc : Option (String × String)
  /-- `.//SAMPLE/TITLE` text. -/
  sample_title : Option String
  /-- `.//DESIGN/LIBRARY_DESCRIPTOR/LIBRARY_LAYOUT/SINGLE` present. -/
  layout_single : Bool
  /-- `.//DESIGN/LIBRARY_DESCRIPTOR/LIBRARY_LAYOUT/PAIRED` present. -/
  layout_paired : Bool
  /-- `.//PLATFORM/ILLUMINA/INSTRUMENT_MODEL` text. -/
  platform_illumina : Option String
  /-- `.//PLATFORM/PACBIO_SMRT/INSTRUMENT_MODEL` text. -/
  platform_pacbio : Option String
  /-- `.//STUDY_TITLE` text. -/
  study_title : Option String
  /-- `SAMPLE_ATTRIBUTE` (tag, value) pairs in document order. -/
  sample_attributes : List (String × String)
  /-- `./PLATFORM/PACBIO_SMRT/INSTRUMENT_MODEL` queried from the *root*
  inside the run loop (source line 96 reads `sra_root`, not `sra_run`). -/
  root_child_platform_pacbio : Option String
  runs : List XmlRun
deriving DecidableEq, Repr

/-- The run dict built at lines 102-119. -/
structure SraRunInfo where
  ref : String
  spots : Nat
  paired : Bool
  platform : Option String
  nread1 : Option Nat := none
  nread2 : Option Nat := none
  sra_url : Option String := none
  sra_size : Option Nat := none
  sra_md5 : Option String := none
deriving DecidableEq, Repr

/-- The sample dict.  Each `Option` field is `none` when the dict key was
never assigned; `paired` is `Option (Option Bool)` because the key, once
assigned, can itself hold `None`. -/
structure SraSample where
  ref : Option String := none
  name : Option String := none
  label : Option String := none
  paired : Option (Option Bool) := none
  attributes : Option (List (String × String)) := none
  runs : List SraRunInfo := []
deriving DecidableEq, Repr

/-- The freshly initialised `sample = {'runs': []}` (line 52). -/
def emptySraSample : SraSample := {}

/-- The dict comprehension `{c.get('index'): c.get('count') for c in ...}`
followed by a key lookup: later duplicates overwrite earlier ones, so look
the key up from the right. -/
def statLookup (stats : List (String × Nat)) (k : String) : Option Nat :=
  (stats.reverse).lookup k

/-- The `SRAFile` loop (lines 113-119): each public Primary-ETL file
overwrites `sra_url`/`sra_size`; `sra_md5` is only overwritten when the
file carries an `md5` attribute. -/
def filesFold : List XmlSraFile → Option String × Option Nat × Option String →
    Option String × Option Nat × Option String
  | [], acc => acc
  | f :: rest, (url, size, md5) =>
    if f.cluster = "public" ∧ f.supertype = "Primary ETL" then
      filesFold rest (some f.url, some f.size,
        match f.md5 with
        | some m => some m
        | none => md5)
    else
      filesFold rest (url, size, md5)

/-- Stable insertion of a run into a `ref`-sorted list (Python `list.sort`
with `key=lambda x: x['ref']` is stable). -/
def insertByRef (r : SraRunInfo) : List SraRunInfo → List SraRunInfo
  | [] => [r]
  | s :: rest => if s.ref ≤ r.ref then s :: insertByRef r rest else r :: s :: rest

/-- Stable sort of runs by `ref` ascending (line 124). -/
def sortRunsByRef : List SraRunInfo → List SraRunInfo
  | [] => []
  | r :: rest => insertByRef r (sortRunsByRef rest)

/-- The run loop (lines 93-122).  The `platform` variable is the loop-carried
accumulator: a per-run instrument model overrides it for this run *and all
later runs*.  A missing `Statistics` element makes the source raise
(`TypeError` from iterating `None`). -/
def buildRuns (doc : SraXmlDoc) (importRuns : List String) :
    List XmlRun → Option String → Except String (List SraRunInfo)
  | [], _ => Except.ok []
  | r :: rest, plat =>
    let plat' : Option String :=
      match r.platform_illumina with
      | some p => some p
      | none =>
        match doc.root_child_platform_pacbio with
        | some p => some p
        | none => plat
    match r.stats with
    | none => Except.error "TypeError: argument of type NoneType is not iterable"
    | some stats =>
      let nread1 := statLookup stats "0"
      let nread2 := statLookup stats "1"
      let fl := filesFold r.files (none, none, none)
      let run : SraRunInfo :=
        { ref := r.accession, spots := r.total_spots, paired := nread2.isSome,
          platform := plat', nread1 := nread1, nread2 := nread2,
          sra_url := fl.1, sra_size := fl.2.1, sra_md5 := fl.2.2 }
      match buildRuns doc importRuns rest plat' with
      | Except.error e => Except.error e
      | Except.ok runs =>
        if importRuns.length = 0 ∨ run.ref ∈ importRuns then
          Except.ok (run :: runs)
        else
          Except.ok runs

/-- The possible outcomes of `parse_sra_xml`: the normal pair return
(line 125), the bare single-value return of the study-mismatch branch
(line 56, `return sample` — not a tuple), or an uncaught exception. -/
inductive ParseResult where
  | pair (title : Option String) (sample : SraSample)
  | bare (sample : SraSample)
  | crash (msg : String)
deriving DecidableEq, Repr

/-- Lines 57-125: everything after the study check. -/
def buildSampleResult (doc : SraXmlDoc) (importRuns : List String) : ParseResult :=
  let s1 : SraSample :=
    match doc.sample_acc with
    | some (acc, al) => { emptySraSample with ref := some acc, name := some al }
    | none => emptySraSample
  let s2 : SraSample :=
    match doc.sample_title with
    | some t => { s1 with label := some t }
    | none =>
      match s1.name with
      | some n => { s1 with label := some n }
      | none => s1
  let paired : Option Bool :=
    if doc.layout_single then some false
    else if doc.layout_paired then some true
    else none
  let s3 : SraSample := { s2 with paired := some paired }
  let platform0 : Option String :=
    match doc.platform_illumina with
    | some p => some p
    | none => doc.platform_pacbio
  let s4 : SraSample := { s3 with attributes := some doc.sample_attributes }
  match buildRuns doc importRuns doc.runs platform0 with
  | Except.error e => ParseResult.crash e
  | Except.ok runs =>
    let runs' := if runs.length > 0 then sortRunsByRef runs else runs
    ParseResult.pair doc.study_title { s4 with runs := runs' }

/-- `parse_sra_xml(f, srp, import_runs)` (lines 49-125).  With `srp` given,
the study accession/alias are compared (crashing if there is no STUDY
element); on mismatch the function returns the bare `sample` dict. -/
def parse_sra_xml (doc : SraXmlDoc) (srp : Option String)
    (importRuns : List String) : ParseResult :=
  match srp with
  | none => buildSampleResult doc importRuns
  | some s =>
    match doc.study with
    | none => ParseResult.crash "AttributeError: NoneType has no attribute attrib"
    | some (acc, al) =>
      if ¬(s = acc ∨ s = al) then ParseResult.bare emptySraSample
      else buildSampleResult doc importRuns

/-- The caller's unpacking `title, sample = parse_sra_xml(...)` in
`get_samples_infos` (line 34): a tuple unpacks normally; unpacking the bare
one-key dict raises `ValueError`; an exception propagates. -/
def unpack_sra_parse : ParseResult → Except String (Option String × SraSample)
  | ParseResult.pair t s => Except.ok (t, s)
  | ParseResult.bare _ =>
    Except.error "ValueError: not enough values to unpack (expected 2, got 1)"
  | ParseResult.crash e => Except.error e

/-! ### import_sra_id.py: update_ref (source lines 44-93) -/

/-- One external run as `update_ref` reads it: `ref` and `spots`. -/
structure SraRunX where
  ref : String
  spots : Nat
deriving DecidableEq, Repr

/-- One external sample as `update_ref` reads it; `replicate_ref` models
presence of the `'replicate_ref'` dict key. -/
structure SraSampleU where
  name : String
  ref : String
  replicate_ref : Option String := none
  runs : List SraRunX := []
deriving DecidableEq, Repr

/-- A local replicate record as returned by `replicate/get-ref`. -/
structure Replicate where
  replicate_id : Nat
  replicate_ref : String
  sra_ref : Option String := none
  publication_ref : Option String := none
deriving DecidableEq, Repr

/-- A local run record as returned by the `run` search. -/
structure LocalRun where
  run_id : Nat
  run_ref : String
  sra_ref : Option String := none
  spots : Nat
deriving DecidableEq, Repr

/-- An edit query queued by `update_ref` (to be POSTed by `main`). -/
inductive Query where
  | editReplicateSra (replicate_id : Nat) (sra_ref : String)
  | editReplicatePub (replicate_id : Nat) (publication_ref : String)
  | editRunSra (run_id : Nat) (sra_ref : String)
deriving DecidableEq, Repr

/-- A store lookup issued by `update_ref`. -/
inductive Lookup where
  | getReplicate (ref : String)
  | getRuns (replicate_ref : String)
deriving DecidableEq, Repr

/-- The metadata store as `update_ref` queries it: `GET
replicate/get-ref/{ref}` (outer `[0]` indexing already applied) and `POST
run` searching by `replicate_ref`. -/
structure UStore where
  getReplicate : String → List Replicate
  getRuns : String → List LocalRun

/-- The inner run-matching loop (lines 76-83): walk the fetched local runs
in store order; the first with no `sra_ref` and equal `spots` is the match;
a local run with a non-null `sra_ref` seen before any match sets `already`. -/
def findRun (spots : Nat) : List LocalRun → Bool → Option LocalRun × Bool
  | [], already => (none, already)
  | r :: rest, already =>
    match r.sra_ref with
    | none => if r.spots = spots then (some r, already) else findRun spots rest already
    | some _ => findRun spots rest true

/-- One iteration of the `for sra_run in sra_sample['runs']` loop
(lines 74-92): a match queues a `run/edit` query; otherwise one warning
(either "already attached" or "no run found"). -/
def runStep (runs : List LocalRun) (sr : SraRunX) : List Query × Nat :=
  match findRun sr.spots runs false with
  | (some r, _) => ([Query.editRunSra r.run_id sr.ref], 0)
  | (none, _) => ([], 1)

/-- The whole run loop over a sample's external runs. -/
def runLoop (runs : List LocalRun) : List SraRunX → List Query × Nat
  | [] => ([], 0)
  | sr :: rest =>
    let s := runStep runs sr
    let t := runLoop runs rest
    (s.1 ++ t.1, s.2 + t.2)

/-- Processing of one sample by `update_ref` (lines 47-92), returning the
queued queries, the warning count, and the store lookups issued. -/
def processSample (store : UStore) (pub : String) (s : SraSampleU) :
    List Query × Nat × List Lookup :=
  if pyStartsWith s.name "Raw multiplex:" then ([], 0, [])
  else
    match s.replicate_ref with
    | none => ([], 0, [])
    | some rref =>
      match store.getReplicate rref with
      | [] => ([], 1, [Lookup.getReplicate rref])
      | repl :: _ =>
        let q1 : List Query :=
          match repl.sra_ref with
          | none => [Query.editReplicateSra repl.replicate_id s.ref]
          | some _ => []
        let w1 : Nat :=
          match repl.sra_ref with
          | none => 0
          | some _ => 1
        let q2 : List Query :=
          match repl.publication_ref with
          | none => [Query.editReplicatePub repl.replicate_id pub]
          | some _ => []
        let runs := store.getRuns repl.replicate_ref
        let t := runLoop runs s.runs
        (q1 ++ q2 ++ t.1, w1 + t.2,
         [Lookup.getReplicate rref, Lookup.getRuns repl.replicate_ref])

/-- `update_ref(sra_samples, publication_ref, dbl)` (lines 44-93):
fold over the samples, concatenating queries and lookups and summing
warnings. -/
def update_ref (store : UStore) (pub : String) :
    List SraSampleU → List Query × Nat × List Lookup
  | [] => ([], 0, [])
  | s :: rest =>
    let a := processSample store pub s
    let b := update_ref store pub rest
    (a.1 ++ b.1, a.2.1 + b.2.1, a.2.2 ++ b.2.2)

/-! ### import_sra_id.py: check_runs (source lines 117-146) -/

/-- One pooled external run as tagged by `check_replicates`. -/
structure SraRunC where
  ref : String
  spots : Nat
  replicate_ref : String
deriving DecidableEq, Repr

/-- A pooled run with its mutable `done` flag (lines 120-121). -/
structure PoolRun where
  run : SraRunC
  done : Bool
deriving DecidableEq, Repr

/-- A local run as the check-path `run` search returns it: `sra_ref` is the
comma-joined external-ref list (the fuzzy search only returns rows whose
`sra_ref` matched, hence non-null). -/
structure CLocalRun where
  run_ref : String
  sra_ref : String
  spots : Nat
deriving DecidableEq, Repr

/-- The store as `check_runs` queries it: `POST run` with
`replicate_ref EQUAL r AND sra_ref FUZZY ref`. -/
def CStore : Type := String → String → List CLocalRun

/-- `sra_spots` (lines 135-138): sum of `spots` over the pool entries whose
ref is in the matched run's ref list and that are not yet done. -/
def poolSum (refs : List String) (pool : List PoolRun) : Nat :=
  pool.foldl (fun acc p =>
    if refs.contains p.run.ref && !p.done then acc + p.run.spots else acc) 0

/-- The `sr['done'] = True` marking pass over the pool (lines 136-139). -/
def poolMark (refs : List String) (pool : List PoolRun) : List PoolRun :=
  pool.map (fun p =>
    if refs.contains p.run.ref && !p.done then { p with done := true } else p)

/-- The `for sra_run in sra_runs` loop of `check_runs` (lines 122-144).
`pre` is the already-visited prefix of the pool (whose `done` flags later
sums still read), `suf` the rest.  The `fuel` argument only bounds the
recursion depth; it is initialised to the pool length and, since marking
preserves lengths, it never runs out.  A spot-count mismatch runs
`nerror += 1; sys.exit()` — modelled as `Except.error ()`: the process
terminates (with status 0) and nothing is returned. -/
def crLoop (store : CStore) : Nat → List PoolRun → List PoolRun → Nat → Nat →
    Except Unit (Nat × Nat)
  | _, _, [], nwarn, nerror => Except.ok (nwarn, nerror)
  | 0, _, _ :: _, nwarn, nerror => Except.ok (nwarn, nerror)
  | fuel + 1, pre, p :: rest, nwarn, nerror =>
    if p.done then crLoop store fuel (pre ++ [p]) rest nwarn nerror
    else
      match store p.run.replicate_ref p.run.ref with
      | [] => crLoop store fuel (pre ++ [p]) rest (nwarn + 1) nerror
      | [lr] =>
        let refs := pySplitChar ',' lr.sra_ref
        if lr.spots = poolSum refs (pre ++ p :: rest) then
          crLoop store fuel (poolMark refs (pre ++ [p])) (poolMark refs rest) nwarn nerror
        else Except.error ()
      | _ :: _ :: _ => crLoop store fuel (pre ++ [p]) rest (nwarn + 1) nerror

/-- `check_runs(sra_runs, dbl)` (lines 117-146): reset all `done` flags,
then run the loop with zero counters. -/
def check_runs (store : CStore) (pool : List SraRunC) : Except Unit (Nat × Nat) :=
  crLoop store pool.length [] (pool.map (fun r => { run := r, done := false })) 0 0

/-- Whether a query list contains a replicate `sra_ref` edit. -/
def hasReplicateSraEdit (l : List Query) : Bool :=
  l.any (fun q =>
    match q with
    | Query.editReplicateSra _ _ => true
    | _ => false)

/-! ### Concrete instances for counterexamples and witnesses -/

/-- A document whose study accession/alias are `SRP000001` / `my_study`. -/
def exDocC3 : SraXmlDoc :=
  { study := some ("SRP000001", "my_study"), sample_acc := none, sample_title := none,
    layout_single := false, layout_paired := false, platform_illumina := none,
    platform_pacbio := none, study_title := none, sample_attributes := [],
    root_child_platform_pacbio := none, runs := [] }

/-- Store whose replicate `R1` is already linked (`sra_ref = SRX_OLD`) and
has one unlinked local run of 100 spots. -/
def exStoreConflict : UStore :=
  { getReplicate := fun r =>
      if r = "R1" then
        [{ replicate_id := 7, replicate_ref := "R1",
           sra_ref := some "SRX_OLD", publication_ref := some "P" }]
      else [],
    getRuns := fun r =>
      if r = "R1" then [{ run_id := 3, run_ref := "RUN3", sra_ref := none, spots := 100 }]
      else [] }

/-- External sample declaring `replicate_ref = R1` with one run of 100 spots. -/
def exSampleConflict : SraSampleU :=
  { name := "s1", ref := "SMP1", replicate_ref := some "R1", runs := [⟨"SRR9", 100⟩] }

/-- Store whose replicate `R1` is unlinked with two unlinked local runs of
spots 100 and 200 (the spec's link-path example). -/
def exStoreLink : UStore :=
  { getReplicate := fun r =>
      if r = "R1" then
        [{ replicate_id := 7, replicate_ref := "R1",
           sra_ref := none, publication_ref := some "P" }]
      else [],
    getRuns := fun r =>
      if r = "R1" then
        [{ run_id := 1, run_ref := "RUN1", sra_ref := none, spots := 100 },
         { run_id := 2, run_ref := "RUN2", sra_ref := none, spots := 200 }]
      else [] }

/-- External sample with one run of 200 spots. -/
def exSampleLink : SraSampleU :=
  { name := "s1", ref := "SMP1", replicate_ref := some "R1", runs := [⟨"SRRX", 200⟩] }

/-- Store whose replicate `R1` is unlinked with a single unlinked local run
of 200 spots. -/
def exStoreDouble : UStore :=
  { getReplicate := fun r =>
      if r = "R1" then
        [{ replicate_id := 7, replicate_ref := "R1",
           sra_ref := none, publication_ref := some "P" }]
      else [],
    getRuns := fun r =>
      if r = "R1" then [{ run_id := 1, run_ref := "RUN1", sra_ref := none, spots := 200 }]
      else [] }

/-- External sample with two runs of 200 spots each. -/
def exSampleDouble : SraSampleU :=
  { name := "s1", ref := "SMP1", replicate_ref := some "R1",
    runs := [⟨"SRR1", 200⟩, ⟨"SRR2", 200⟩] }

/-- A multiplex-named sample that nevertheless declares a replicate ref. -/
def exSampleMultiplex : SraSampleU :=
  { name := "Raw multiplex: pool1", ref := "SMP9", replicate_ref := some "R1",
    runs := [⟨"SRR5", 10⟩] }

/-- A store with no replicates and no runs. -/
def exStoreEmpty : UStore := { getReplicate := fun _ => [], getRuns := fun _ => [] }

/-- Check-path store: replicate `REP1` has one local run whose external-ref
list is `SRR1,SRR2` with 300 recorded spots. -/
def exCStore : CStore := fun rr ref =>
  if rr = "REP1" && (ref = "SRR1" || ref = "SRR2") then
    [⟨"RUN1", "SRR1,SRR2", 300⟩]
  else []

/-- Pool whose spots sum to 290 ≠ 300: the mismatch input. -/
def exPoolBad : List SraRunC := [⟨"SRR1", 140, "REP1"⟩, ⟨"SRR2", 150, "REP1"⟩]

/-- Check-path store for the witness: one local run `SRR1` of 140 spots. -/
def exCStoreOne : CStore := fun rr ref =>
  if rr = "REP1" && ref = "SRR1" then [⟨"RUN1", "SRR1", 140⟩] else []

/-- Pooled run matching `exCStoreOne` exactly. -/
def exRunOne : SraRunC := ⟨"SRR1", 140, "REP1"⟩

/-- The local run `exCStoreOne` returns. -/
def exLrOne : CLocalRun := ⟨"RUN1", "SRR1", 140⟩

/-- The docstring's own example header line (fastq.py line 73). -/
def exLineIllumina : String := "@DCM97JN1:188:C11R8ACXX:5:1101:1208:2164 1:N:0:GCTCATGA"

/-! ## Theorems -/

/-- The check-path loop never returns an error count other than the one it
was started with: `nerror` is only incremented on the branch that
immediately exits the process. -/
theorem crLoop_ok_nerror (store : CStore) :
    ∀ (fuel : Nat) (pre suf : List PoolRun) (nw ne w e : Nat),
      crLoop store fuel pre suf nw ne = Except.ok (w, e) → e = ne := by
  intro fuel
  induction fuel with
  | zero =>
    intro pre suf nw ne w e h
    cases suf with
    | nil =>
      simp only [crLoop, Except.ok.injEq, Prod.mk.injEq] at h
      exact h.2.symm
    | cons p rest =>
      simp only [crLoop, Except.ok.injEq, Prod.mk.injEq] at h
      exact h.2.symm
  | succ fuel ih =>
    intro pre suf nw ne w e h
    cases suf with
    | nil =>
      simp only [crLoop, Except.ok.injEq, Prod.mk.injEq] at h
      exact h.2.symm
    | cons p rest =>
      rw [crLoop] at h
      split at h
      · exact ih _ _ _ _ _ _ h
      · split at h
        · exact ih _ _ _ _ _ _ h
        · dsimp only at h
          split at h
          · exact ih _ _ _ _ _ _ h
          · cases h
        · exact ih _ _ _ _ _ _ h

/-- C1.  Corrected spot-count verification contract of `check_runs`:
(1) whenever `check_runs` returns at all, the returned error count is 0 —
reconciliation errors are never reported back to the caller;
(2) if the first pool entry matches exactly one local run and that run's
recorded `spots` differs from the pool sum over its external-ref list, the
whole pass halts at once via `sys.exit()` (modelled `Except.error ()`):
nothing is returned and the remaining pool entries are never processed;
(3) on a single-entry pool with an exactly-equal sum, the run is resolved
with no warning and no error recorded. -/
theorem check_runs_amended (store : CStore) (pool : List SraRunC) :
    (∀ w e, check_runs store pool = Except.ok (w, e) → e = 0) ∧
    (∀ r rest lr, pool = r :: rest →
      store r.replicate_ref r.ref = [lr] →
      lr.spots ≠ poolSum (pySplitChar ',' lr.sra_ref)
        ((r :: rest).map (fun x => { run := x, done := false })) →
      check_runs store pool = Except.error ()) ∧
    (∀ r lr, pool = [r] →
      store r.replicate_ref r.ref = [lr] →
      lr.spots = poolSum (pySplitChar ',' lr.sra_ref) [{ run := r, done := false }] →
      check_runs store pool = Except.ok (0, 0)) := by
  refine ⟨?_, ?_, ?_⟩
  · intro w e h
    exact crLoop_ok_nerror store _ _ _ _ _ _ _ h
  · intro r rest lr hp hst hne
    subst hp
    simp only [check_runs, List.map_cons, List.length_cons, crLoop, List.nil_append]
    simp only [hst]
    simp only [List.map_cons] at hne
    simp [hne]
  · intro r lr hp hst heq
    subst hp
    simp only [check_runs, List.map_cons, List.map_nil, List.length_cons, List.length_nil,
      crLoop, List.nil_append]
    simp only [hst]
    simp [heq, poolMark, crLoop]

/-- Witness for C1: a concrete single-run pool whose sum matches exactly is
verified with zero warnings and zero errors. -/
theorem check_runs_amended_witness :
    check_runs exCStoreOne [exRunOne] = Except.ok (0, 0) :=
  (check_runs_amended exCStoreOne [exRunOne]).2.2 exRunOne exLrOne rfl (by decide) (by decide)

/-- Counterexample for C1 as stated: on the concrete mismatching pool the
engine does not return warning/error counts at all — `sys.exit()` fires
(process status 0) before anything is returned. -/
theorem check_runs_mismatch_exits_counterexample :
    check_runs exCStore exPoolBad = Except.error () ∧
    (check_runs exCStore exPoolBad).isOk = false := by decide

/-- C3.  On a document whose study accession and alias both differ from the
expected project ref, `parse_sra_xml` returns the bare one-key sample dict
(`return sample`, line 56) instead of the normal `(title, sample)` pair, so
the caller's unpacking `title, sample = parse_sra_xml(...)` raises
`ValueError` — the document is an error, not a skip. -/
theorem parse_sra_xml_mismatch_bare_return :
    parse_sra_xml exDocC3 (some "SRP999999") [] = ParseResult.bare emptySraSample ∧
    parse_sra_xml exDocC3 (some "SRP999999") [] ≠ ParseResult.pair none emptySraSample ∧
    unpack_sra_parse (parse_sra_xml exDocC3 (some "SRP999999") []) =
      Except.error "ValueError: not enough values to unpack (expected 2, got 1)" := by
  decide

/-- C8.  The character classes `[R,I]` and `[1,2,3]` of the Convention A
regex contain a literal comma, so the filename `A_B_L001_,1_001.fastq` —
whose end tag `,1` starts with neither `R` nor `I` — yields a
FileDescriptor, contradicting the claimed exact shape. -/
theorem parse_illumina_fastq_filename_comma_bug :
    parse_illumina_fastq_filename "A_B_L001_,1_001.fastq" =
      some { name := "A", barcode := "B", lane := "001", fend := ",1" } ∧
    specEndTagOk ",1" = false ∧
    specEndTagOk "R1" = true := by decide

/-- C9.  A sample whose name starts with `Raw multiplex:` contributes
nothing to `update_ref`: no queries, no warnings, no store lookups — the
whole result is as if the sample were absent. -/
theorem update_ref_multiplex_skip (store : UStore) (pub : String)
    (s : SraSampleU) (rest : List SraSampleU)
    (h : pyStartsWith s.name "Raw multiplex:" = true) :
    processSample store pub s = ([], 0, []) ∧
    update_ref store pub (s :: rest) = update_ref store pub rest := by
  have hp : processSample store pub s = ([], 0, []) := by
    unfold processSample
    simp [h]
  exact ⟨hp, by simp [update_ref, hp]⟩

/-- Witness for C9: a concrete multiplex-named sample carrying a declared
replicate ref is skipped entirely. -/
theorem update_ref_multiplex_skip_witness :
    processSample exStoreEmpty "PUB" exSampleMultiplex = ([], 0, []) ∧
    update_ref exStoreEmpty "PUB" [exSampleMultiplex] = update_ref exStoreEmpty "PUB" [] :=
  update_ref_multiplex_skip exStoreEmpty "PUB" exSampleMultiplex [] (by decide)

/-- The run-matching loop only ever queues `run/edit` queries. -/
theorem runLoop_no_replicate_edit (runs : List LocalRun) :
    ∀ l : List SraRunX, hasReplicateSraEdit (runLoop runs l).1 = false := by
  intro l
  induction l with
  | nil => rfl
  | cons sr rest ih =>
    simp only [runLoop, hasReplicateSraEdit, List.any_append] at ih ⊢
    rw [ih]
    unfold runStep
    rcases hf : findRun sr.spots runs false with ⟨o, a⟩
    cases o with
    | none => simp
    | some r => simp

/-- C2.  Corrected conflict behaviour of the link path: when the looked-up
local replicate already carries a non-null `sra_ref`, a conflict warning is
recorded and no `replicate` `sra_ref` edit is queued (the existing link is
not overwritten) — but the sample is *not* skipped: a `publication_ref`
edit is still queued when that field is null, and run-level matching
proceeds and may queue `run/edit` queries. -/
theorem update_ref_conflict_amended (store : UStore) (pub : String) (s : SraSampleU)
    (rref : String) (repl : Replicate) (tl : List Replicate) (v : String)
    (hm : pyStartsWith s.name "Raw multiplex:" = false)
    (hr : s.replicate_ref = some rref)
    (hg : store.getReplicate rref = repl :: tl)
    (hs : repl.sra_ref = some v) :
    hasReplicateSraEdit (processSample store pub s).1 = false ∧
    1 ≤ (processSample store pub s).2.1 ∧
    (processSample store pub s).1 =
      (match repl.publication_ref with
       | none => [Query.editReplicatePub repl.replicate_id pub]
       | some _ => []) ++ (runLoop (store.getRuns repl.replicate_ref) s.runs).1 := by
  have hps : processSample store pub s =
      ((match repl.publication_ref with
        | none => [Query.editReplicatePub repl.replicate_id pub]
        | some _ => []) ++ (runLoop (store.getRuns repl.replicate_ref) s.runs).1,
       1 + (runLoop (store.getRuns repl.replicate_ref) s.runs).2,
       [Lookup.getReplicate rref, Lookup.getRuns repl.replicate_ref]) := by
    unfold processSample
    simp [hm, hr, hg, hs]
  refine ⟨?_, ?_, ?_⟩
  · rw [hps]
    simp only [hasReplicateSraEdit, List.any_append]
    have h1 := runLoop_no_replicate_edit (store.getRuns repl.replicate_ref) s.runs
    simp only [hasReplicateSraEdit] at h1
    rw [h1]
    cases hp : repl.publication_ref <;> simp
  · rw [hps]
    exact Nat.le_add_right 1 _
  · rw [hps]

/-- Witness for C2: the concrete conflicting sample gets a warning, no
replicate `sra_ref` edit, and its run matching still proceeds. -/
theorem update_ref_conflict_amended_witness :
    hasReplicateSraEdit (processSample exStoreConflict "PUB" exSampleConflict).1 = false ∧
    1 ≤ (processSample exStoreConflict "PUB" exSampleConflict).2.1 ∧
    (processSample exStoreConflict "PUB" exSampleConflict).1 =
      (match (Replicate.mk 7 "R1" (some "SRX_OLD") (some "P")).publication_ref with
       | none => [Query.editReplicatePub 7 "PUB"]
       | some _ => []) ++
      (runLoop (exStoreConflict.getRuns "R1") exSampleConflict.runs).1 :=
  update_ref_conflict_amended exStoreConflict "PUB" exSampleConflict "R1"
    (Replicate.mk 7 "R1" (some "SRX_OLD") (some "P")) [] "SRX_OLD"
    (by decide) rfl (by decide) rfl

/-- Counterexample for C2 as stated: for the concrete conflicting sample an
edit *is* queued (a run-level `sra_ref` edit), so the sample is not
skipped, even though the conflict warning is recorded. -/
theorem update_ref_conflict_still_edits_counterexample :
    (update_ref exStoreConflict "PUB" [exSampleConflict]).1 = [Query.editRunSra 3 "SRR9"] ∧
    (update_ref exStoreConflict "PUB" [exSampleConflict]).2.1 = 1 := by decide

/-- C4.  Corrected run-matching rule: for each external run, the linked
local run is the *first* store-ordered local run with a null `sra_ref` and
exactly equal `spots` (`List.find?` of that predicate) — eligibility is
evaluated against the store snapshot fetched once per sample, so a local
run matched by an earlier external run of the same sample is not excluded
from matching again.  On the spec's example (local runs of spots 100 and
200, one external run of 200) exactly the 200-spot run is linked. -/
theorem update_ref_first_eligible_amended :
    (∀ (spots : Nat) (runs : List LocalRun) (a : Bool),
      (findRun spots runs a).1 =
        runs.find? (fun q => q.sra_ref.isNone && q.spots == spots)) ∧
    (update_ref exStoreLink "PUB" [exSampleLink]).1 =
      [Query.editReplicateSra 7 "SMP1", Query.editRunSra 2 "SRRX"] := by
  constructor
  · intro spots runs
    induction runs with
    | nil => intro a; rfl
    | cons x rest ih =>
      intro a
      rw [findRun, List.find?]
      cases hx : x.sra_ref with
      | none =>
        by_cases hs : x.spots = spots
        · simp [hx, hs]
        · simp only [hx, if_neg hs, Option.isNone_none, Bool.true_and]
          rw [ih a]
          have : (x.spots == spots) = false := by
            exact beq_false_of_ne hs
          simp [this]
      | some w =>
        simp only [hx, Option.isNone_some, Bool.false_and]
        exact ih true
  · decide

/-- Witness for C4: the first-eligible rule evaluated on the spec-example
local runs picks the 200-spot run. -/
theorem update_ref_first_eligible_amended_witness :
    (findRun 200
      [{ run_id := 1, run_ref := "RUN1", sra_ref := none, spots := 100 },
       { run_id := 2, run_ref := "RUN2", sra_ref := none, spots := 200 }] false).1 =
      ([{ run_id := 1, run_ref := "RUN1", sra_ref := none, spots := 100 },
        { run_id := 2, run_ref := "RUN2", sra_ref := none, spots := 200 }] : List LocalRun).find?
        (fun q => q.sra_ref.isNone && q.spots == 200) :=
  update_ref_first_eligible_amended.1 200
    [{ run_id := 1, run_ref := "RUN1", sra_ref := none, spots := 100 },
     { run_id := 2, run_ref := "RUN2", sra_ref := none, spots := 200 }] false

/-- Counterexample for C4 as stated: with a single unlinked 200-spot local
run and two external runs of 200 spots each, the same local run (id 1) is
linked to *both* external runs — an already-matched local run is linked to
a second external run. -/
theorem update_ref_double_link_counterexample :
    (update_ref exStoreDouble "PUB" [exSampleDouble]).1 =
      [Query.editReplicateSra 7 "SMP1",
       Query.editRunSra 1 "SRR1", Query.editRunSra 1 "SRR2"] := by decide

/-- A nonempty descriptor list has at least one distinct path. -/
theorem one_le_pathCount (ps : List FastqEntry) (h : ps ≠ []) : 1 ≤ pathCount ps := by
  unfold pathCount
  rw [Nat.one_le_iff_ne_zero, Ne, List.length_eq_zero, List.dedup_eq_nil, List.map_eq_nil_iff]
  exact h

/-- C7.  Corrected `check_fastqs` contract: it returns false iff some
group's distinct-path count differs from 1 — that is, iff some group spans
at least 2 distinct directory paths *or is empty*.  Restricted to indexes
whose groups are all nonempty (as `find_fastqs` produces), false is
equivalent to some group spanning at least 2 distinct paths. -/
theorem check_fastqs_amended (fastqs : List (String × List FastqEntry)) :
    (check_fastqs fastqs = false ↔ ∃ g ∈ fastqs, pathCount g.2 ≠ 1) ∧
    ((∀ g ∈ fastqs, g.2 ≠ []) →
      (check_fastqs fastqs = false ↔ specSpansTwo fastqs = true)) := by
  induction fastqs with
  | nil => simp [check_fastqs, specSpansTwo]
  | cons g rest ih =>
    rcases g with ⟨nm, ps⟩
    constructor
    · by_cases hg : pathCount ps = 1
      · simp [check_fastqs, hg, ih.1]
      · simp [check_fastqs, hg]
    · intro hne
      have hps : ps ≠ [] := hne (nm, ps) (by simp)
      have hrest : ∀ g ∈ rest, g.2 ≠ [] := fun g hgm => hne g (by simp [hgm])
      by_cases hg : pathCount ps = 1
      · have h2 : ¬(2 ≤ pathCount ps) := by omega
        simp [check_fastqs, hg, specSpansTwo, h2, (ih.2 hrest), List.any_cons]
      · have h1 := one_le_pathCount ps hps
        have h2 : 2 ≤ pathCount ps := by omega
        simp [check_fastqs, hg, specSpansTwo, List.any_cons, h2]

/-- Witness for C7: a concrete group spanning two distinct paths makes
`check_fastqs` fail, matching the spans-two predicate. -/
theorem check_fastqs_amended_witness :
    check_fastqs [("a", [FastqEntry.mk "p1" "f1", FastqEntry.mk "p2" "f2"])] = false ∧
    specSpansTwo [("a", [FastqEntry.mk "p1" "f1", FastqEntry.mk "p2" "f2"])] = true := by
  have h := (check_fastqs_amended
    [("a", [FastqEntry.mk "p1" "f1", FastqEntry.mk "p2" "f2"])]).2 (by decide)
  exact ⟨h.mpr (by decide), by decide⟩

/-- Counterexample for C7 as stated: a mapping with an empty descriptor
list is rejected although no group spans two or more distinct paths. -/
theorem check_fastqs_empty_group_counterexample :
    check_fastqs [("x", ([] : List FastqEntry))] = false ∧
    specSpansTwo [("x", ([] : List FastqEntry))] = false := by decide

/-- C10.  With the first line starting with `@`, `get_fastq_info` always
returns an info dict: the per-platform parsers are `Option`-valued (the
source wraps each body in `try ... except: return None`), so identity
parsing never raises.  `spots` is present exactly when a scan was
requested, and whenever the Illumina parser yields `None` and the PacBio
parser yields the empty dict, every identity field of the result is
absent. -/
theorem get_fastq_info_total_identity_absent (lines : List String) (b : Bool)
    (h : pyStartsWith (lines.headD "") "@" = true) :
    (∃ i, get_fastq_info lines b = Except.ok i) ∧
    (∀ i, get_fastq_info lines b = Except.ok i → i.spots.isSome = b) ∧
    (get_illumina_fastq_info (lines.headD "") = none →
      get_pacbio_fastq_info (lines.headD "") = some emptySeqId →
      ∀ i, get_fastq_info lines b = Except.ok i → i.id = emptySeqId) := by
  cases b with
  | false =>
    have hg : get_fastq_info lines false =
        Except.ok { id := firstSeqId (lines.headD ""),
                    read_length := ((lines[1]?).getD "").length, spots := none } := by
      simp only [get_fastq_info, h, if_true, Bool.false_eq_true, if_false]
    refine ⟨⟨_, hg⟩, ?_, ?_⟩
    · intro i hi
      rw [hg] at hi
      cases hi
      rfl
    · intro hil hpb i hi
      rw [hg] at hi
      cases hi
      simp only [firstSeqId, hil, hpb]
  | true =>
    have hg : get_fastq_info lines true =
        Except.ok { id := firstSeqId (lines.headD ""),
                    read_length := (scanSpots (lines.drop 2) 1 ((lines[1]?).getD "").length).2,
                    spots := some (scanSpots (lines.drop 2) 1 ((lines[1]?).getD "").length).1 } := by
      simp only [get_fastq_info, h, if_true]
    refine ⟨⟨_, hg⟩, ?_, ?_⟩
    · intro i hi
      rw [hg] at hi
      cases hi
      rfl
    · intro hil hpb i hi
      rw [hg] at hi
      cases hi
      simp only [firstSeqId, hil, hpb]

/-- Witness for C10: a header no parser extracts identity from still yields
a result with `read_length` and all identity fields absent. -/
theorem get_fastq_info_total_identity_absent_witness :
    (∃ i, get_fastq_info ["@x", "ACGT"] false = Except.ok i) ∧
    (∀ i, get_fastq_info ["@x", "ACGT"] false = Except.ok i → i.spots.isSome = false) ∧
    (get_illumina_fastq_info ((["@x", "ACGT"] : List String).headD "") = none →
      get_pacbio_fastq_info ((["@x", "ACGT"] : List String).headD "") = some emptySeqId →
      ∀ i, get_fastq_info ["@x", "ACGT"] false = Except.ok i → i.id = emptySeqId) :=
  get_fastq_info_total_identity_absent ["@x", "ACGT"] false (by decide)

/-- The running-maximum update of the scan loop is `Nat.max`. -/
theorem scan_if_max (acc l : Nat) : (if l > acc then l else acc) = Nat.max acc l := by
  simp only [Nat.max_def]
  split <;> split <;> omega

/-- With at most one pending line beyond the two already in hand, the scan
loop cannot form a 4-line group and stops. -/
theorem scanSpots_short (p q : String) (frag : List String) (n m : Nat)
    (h : frag.length ≤ 1) : scanSpots (p :: q :: frag) n m = (n, m) := by
  cases frag with
  | nil => rfl
  | cons a t =>
    cases t with
    | nil => rfl
    | cons c t2 => simp at h

/-- One 4-line group of the scan loop: it consumes the pending pair plus
the next record's header and sequence, and measures the *pending* second
line (the previous record's quality line). -/
theorem scanSpots_step (p q : String) (r : FqRecord) (rs : List FqRecord)
    (frag : List String) (n m : Nat) :
    scanSpots (p :: q :: (flatten4 (r :: rs) ++ frag)) n m =
      scanSpots (r.plus :: r.qual :: (flatten4 rs ++ frag)) (n + 1)
        (if q.length > m then q.length else m) := by
  simp only [flatten4, List.cons_append]
  rfl

/-- Closed form of the scan loop on a well-aligned stream: a pending pair,
the 4-line blocks of `rs`, and a trailing fragment of at most one line.
The count grows by `rs.length`; the measured lines are the pending second
line and the quality lines of all but the last element of `rs`. -/
theorem scanSpots_records (rs : List FqRecord) :
    ∀ (p q : String) (frag : List String) (n m : Nat), frag.length ≤ 1 →
      scanSpots (p :: q :: (flatten4 rs ++ frag)) n m =
        (n + rs.length,
         match rs with
         | [] => m
         | _ :: _ =>
           (rs.dropLast.map (fun r => r.qual.length)).foldl
             (fun acc l => if l > acc then l else acc)
             (if q.length > m then q.length else m)) := by
  induction rs with
  | nil =>
    intro p q frag n m h
    simpa [flatten4] using scanSpots_short p q frag n m h
  | cons r rest ih =>
    intro p q frag n m h
    rw [scanSpots_step]
    have ih' := ih r.plus r.qual frag (n + 1) (if q.length > m then q.length else m) h
    rw [ih']
    cases rest with
    | nil => simp
    | cons x t =>
      simp only [List.dropLast_cons₂, List.map_cons, List.foldl_cons, Prod.mk.injEq,
        List.length_cons]
      exact ⟨by omega, trivial⟩

/-- C6.  Corrected full-scan contract: on a stream of `N ≥ 1` complete
4-line records (each quality line as long as its sequence line) followed by
a fragment of at most **one** line, the scan reports `spotCount = N`, but
`readLength` is the maximum sequence length over the first `max 1 (N-1)`
records only: the 4-line groups the loop consumes are offset by two lines,
so the measured lines are the quality lines of records 1..N-1 and the last
record's length is never measured (a fragment of 2-3 lines would instead
be consumed as a further group, making `spotCount = N + 1`). -/
theorem get_fastq_info_scan_amended (r0 : FqRecord) (rs : List FqRecord)
    (frag : List String)
    (hf : frag.length ≤ 1)
    (hh : pyStartsWith r0.header "@" = true)
    (hq : ∀ r ∈ r0 :: rs, r.qual.length = r.seq.length) :
    (get_fastq_info (flatten4 (r0 :: rs) ++ frag) true).map (fun i => (i.spots, i.read_length)) =
      Except.ok (some (rs.length + 1),
        ((r0 :: rs).dropLast.map (fun r => r.seq.length)).foldl Nat.max r0.seq.length) := by
  have hmaxfun : (fun (acc l : Nat) => if l > acc then l else acc) = Nat.max := by
    funext acc l
    exact scan_if_max acc l
  have hlines : flatten4 (r0 :: rs) ++ frag =
      r0.header :: r0.seq :: (r0.plus :: r0.qual :: (flatten4 rs ++ frag)) := by
    simp [flatten4]
  have hq0 : r0.qual.length = r0.seq.length := hq r0 (by simp)
  have hscan := scanSpots_records rs r0.plus r0.qual frag 1 r0.seq.length hf
  rw [hlines]
  have hg : get_fastq_info
      (r0.header :: r0.seq :: (r0.plus :: r0.qual :: (flatten4 rs ++ frag))) true =
      Except.ok { id := firstSeqId r0.header,
                  read_length := (scanSpots (r0.plus :: r0.qual :: (flatten4 rs ++ frag))
                    1 r0.seq.length).2,
                  spots := some ((scanSpots (r0.plus :: r0.qual :: (flatten4 rs ++ frag))
                    1 r0.seq.length).1) } := by
    simp only [get_fastq_info, List.headD_cons, hh, if_true]
    rfl
  rw [hg]
  simp only [Except.map]
  rw [hscan]
  cases rs with
  | nil => simp
  | cons x t =>
    simp only [Except.ok.injEq, Prod.mk.injEq, Option.some.injEq]
    constructor
    · omega
    · have hdrop : (r0 :: x :: t).dropLast = r0 :: (x :: t).dropLast := by
        simp [List.dropLast_cons₂]
      rw [hq0, hdrop]
      simp only [List.map_cons, List.foldl_cons]
      rw [hmaxfun, scan_if_max]
      have hcongr : (x :: t).dropLast.map (fun r => r.qual.length) =
          (x :: t).dropLast.map (fun r => r.seq.length) := by
        apply List.map_congr_left
        intro a ha
        exact hq a (by
          have : a ∈ x :: t := List.dropLast_subset _ ha
          simp [this])
      rw [hcongr]

/-- Witness for C6: two complete records of sequence lengths 2 and 1 with
no trailing fragment scan to `spotCount = 2`, `readLength = 2`. -/
theorem get_fastq_info_scan_amended_witness :
    (get_fastq_info (flatten4 [FqRecord.mk "@a" "AB" "+" "IJ", FqRecord.mk "@b" "A" "+" "I"]
      ++ []) true).map (fun i => (i.spots, i.read_length)) = Except.ok (some 2, 2) := by
  have h := get_fastq_info_scan_amended (FqRecord.mk "@a" "AB" "+" "IJ")
    [FqRecord.mk "@b" "A" "+" "I"] [] (by decide) (by decide) (by decide)
  rw [h]
  decide

/-- Counterexample for C6 as stated: two complete records of sequence
lengths 1 and 2 and no trailing fragment report `readLength = 1`, while the
maximum sequence length across the records is 2. -/
theorem get_fastq_info_readlength_counterexample :
    (get_fastq_info (flatten4 [FqRecord.mk "@r1" "A" "+" "I", FqRecord.mk "@r2" "AA" "+" "II"])
      true).map (fun i => (i.spots, i.read_length)) = Except.ok (some 2, 1) ∧
    specMaxSeqLen [FqRecord.mk "@r1" "A" "+" "I", FqRecord.mk "@r2" "AA" "+" "II"] = 2 ∧
    (1 : Nat) ≠ 2 := by decide

/-- `toOption` inverts to the success case. -/
theorem toOption_eq_some {ε α : Type} (e : Except ε α) (a : α) :
    e.toOption = some a ↔ e = Except.ok a := by
  cases e <;> simp [Except.toOption]

/-- C5.  Corrected Illumina header-field extraction: the identifier's
colon-fields are read from the *front* — `instrument` is the first field
with its `@` marker stripped, `run number` the second, `flowcell` the third
field alone (not all but the last 4 joined), `lane` the integer value of
the fourth field (not the 4th-from-last) — and with a metadata token the
pair index is the integer of its first character and the barcode its last
colon-field, else the pair index comes from the identifier's last field's
first character and the barcode is `None`. -/
theorem illumina_header_fields_amended (line : String) (info : SeqIdInfo)
    (h : get_illumina_fastq_info line = some info) :
    info.instrument = some (pyDrop1 ((pySplitChar ':' ((pySplitWs line).headD "")).headD "")) ∧
    info.run_number = (pySplitChar ':' ((pySplitWs line).headD ""))[1]? ∧
    info.flowcell = (pySplitChar ':' ((pySplitWs line).headD ""))[2]? ∧
    info.lane = ((pySplitChar ':' ((pySplitWs line).headD ""))[3]?).bind pyToInt ∧
    ((pySplitWs line).length = 2 →
      info.pair = pyIntOfFirstChar ((pySplitWs line).getLast?.getD "") ∧
      info.barcode = (pySplitChar ':' ((pySplitWs line).getLast?.getD "")).getLast?) ∧
    ((pySplitWs line).length ≠ 2 →
      info.pair =
        pyIntOfFirstChar ((pySplitChar ':' ((pySplitWs line).headD "")).getLast?.getD "") ∧
      info.barcode = none) := by
  rw [get_illumina_fastq_info, toOption_eq_some] at h
  unfold illuminaBody at h
  by_cases h2 : (pySplitWs line).length = 2
  · obtain ⟨a, b, hab⟩ := List.length_eq_two.mp h2
    rw [hab] at h
    simp only [List.length_cons, List.length_nil, Nat.reduceAdd, if_true, reduceIte] at h
    rcases hf1 : (pySplitChar ':' a)[1]? with _ | rn <;> rw [hf1] at h
    · cases h
    rcases hf2 : (pySplitChar ':' a)[2]? with _ | fc <;> rw [hf2] at h
    · cases h
    rcases hf3 : (pySplitChar ':' a)[3]? with _ | ls <;> rw [hf3] at h
    · cases h
    simp only at h
    rcases hl : pyToInt ls with _ | lane <;> rw [hl] at h
    · cases h
    simp only at h
    rcases hp : pyIntOfFirstChar b with _ | pr <;> rw [hp] at h
    · cases h
    rcases hbc : (pySplitChar ':' b).getLast? with _ | bc <;> rw [hbc] at h
    · cases h
    simp only [Except.ok.injEq] at h
    subst h
    rw [hab]
    refine ⟨by simp [List.headD_cons], ?_, ?_, ?_, ?_, ?_⟩
    · simp only [List.headD_cons]
      exact hf1.symm
    · simp only [List.headD_cons]
      exact hf2.symm
    · simp only [List.headD_cons]
      rw [hf3]
      simp [hl]
    · intro _
      constructor
      · simp only [List.getLast?_cons_cons, List.getLast?_singleton, Option.getD_some]
        exact hp.symm
      · simp only [List.getLast?_cons_cons, List.getLast?_singleton, Option.getD_some]
        exact hbc.symm
    · intro hn
      exact absurd (by simp) hn
  · rcases hsp : pySplitWs line with _ | ⟨a, t⟩
    · rw [hsp] at h
      simp only [List.length_nil, reduceIte] at h
      cases h
    · rw [hsp] at h
      rw [hsp] at h2
      simp only [if_neg h2] at h
      rcases hf1 : (pySplitChar ':' a)[1]? with _ | rn <;> rw [hf1] at h
      · cases h
      rcases hf2 : (pySplitChar ':' a)[2]? with _ | fc <;> rw [hf2] at h
      · cases h
      rcases hf3 : (pySplitChar ':' a)[3]? with _ | ls <;> rw [hf3] at h
      · cases h
      simp only at h
      rcases hl : pyToInt ls with _ | lane <;> rw [hl] at h
      · cases h
      simp only at h
      rcases hlf : (pySplitChar ':' a).getLast? with _ | lf <;> rw [hlf] at h
      · cases h
      simp only at h
      rcases hp : pyIntOfFirstChar lf with _ | pr <;> rw [hp] at h
      · cases h
      simp only [Except.ok.injEq] at h
      subst h
      refine ⟨by simp [List.headD_cons], ?_, ?_, ?_, ?_, ?_⟩
      · simp only [List.headD_cons]
        exact hf1.symm
      · simp only [List.headD_cons]
        exact hf2.symm
      · simp only [List.headD_cons]
        rw [hf3]
        simp [hl]
      · intro hc
        exact absurd hc h2
      · intro _
        constructor
        · simp only [List.headD_cons]
          rw [hlf]
          simp only [Option.getD_some]
          exact hp.symm
        · rfl

/-- Witness for C5: the docstring's own example header satisfies the
corrected field extraction. -/
theorem illumina_header_fields_amended_witness :
    (SeqIdInfo.mk (some "DCM97JN1") (some "188") (some "C11R8ACXX") (some 5) (some 1)
        (some "GCTCATGA")).instrument =
      some (pyDrop1 ((pySplitChar ':' ((pySplitWs exLineIllumina).headD "")).headD "")) ∧
    (SeqIdInfo.mk (some "DCM97JN1") (some "188") (some "C11R8ACXX") (some 5) (some 1)
        (some "GCTCATGA")).run_number =
      (pySplitChar ':' ((pySplitWs exLineIllumina).headD ""))[1]? ∧
    (SeqIdInfo.mk (some "DCM97JN1") (some "188") (some "C11R8ACXX") (some 5) (some 1)
        (some "GCTCATGA")).flowcell =
      (pySplitChar ':' ((pySplitWs exLineIllumina).headD ""))[2]? ∧
    (SeqIdInfo.mk (some "DCM97JN1") (some "188") (some "C11R8ACXX") (some 5) (some 1)
        (some "GCTCATGA")).lane =
      ((pySplitChar ':' ((pySplitWs exLineIllumina).headD ""))[3]?).bind pyToInt ∧
    ((pySplitWs exLineIllumina).length = 2 →
      (SeqIdInfo.mk (some "DCM97JN1") (some "188") (some "C11R8ACXX") (some 5) (some 1)
          (some "GCTCATGA")).pair =
        pyIntOfFirstChar ((pySplitWs exLineIllumina).getLast?.getD "") ∧
      (SeqIdInfo.mk (some "DCM97JN1") (some "188") (some "C11R8ACXX") (some 5) (some 1)
          (some "GCTCATGA")).barcode =
        (pySplitChar ':' ((pySplitWs exLineIllumina).getLast?.getD "")).getLast?) ∧
    ((pySplitWs exLineIllumina).length ≠ 2 →
      (SeqIdInfo.mk (some "DCM97JN1") (some "188") (some "C11R8ACXX") (some 5) (some 1)
          (some "GCTCATGA")).pair =
        pyIntOfFirstChar
          ((pySplitChar ':' ((pySplitWs exLineIllumina).headD "")).getLast?.getD "") ∧
      (SeqIdInfo.mk (some "DCM97JN1") (some "188") (some "C11R8ACXX") (some 5) (some 1)
          (some "GCTCATGA")).barcode = none) :=
  illumina_header_fields_amended exLineIllumina
    (SeqIdInfo.mk (some "DCM97JN1") (some "188") (some "C11R8ACXX") (some 5) (some 1)
      (some "GCTCATGA")) (by decide)

/-- Counterexample for C5 as stated: on the docstring's example header the
reported flowcell is the third colon-field `C11R8ACXX`, not the claimed
join of all but the last 4 colon-fields (`DCM97JN1:188:C11R8ACXX`). -/
theorem illumina_header_flowcell_counterexample :
    get_illumina_fastq_info exLineIllumina =
      some (SeqIdInfo.mk (some "DCM97JN1") (some "188") (some "C11R8ACXX") (some 5) (some 1)
        (some "GCTCATGA")) ∧
    specIlluminaFlowcell exLineIllumina = "DCM97JN1:188:C11R8ACXX" ∧
    ("C11R8ACXX" : String) ≠ "DCM97JN1:188:C11R8ACXX" := by decide

end LabxDB
